import Mathlib

/-!
Verification of the carshop-ai VIN decoding layer.

This file shallowly embeds the two source files that the claims of the
specification are about:

* `src/hooks/useVinData.ts` — the debounced VIN-lookup hook.  Its pure
  response-processing logic is embedded directly (`hookDeserialize`,
  `applyResponse`), and its React state (`data`, `isLoading`, `error`),
  the lodash debounce timer and the set of in-flight fetches are modelled
  as an explicit state record `HookState` driven by discrete events
  (`HookEvent`): a `submit` event is a `fetchVinData` call together with
  the `useEffect` body it triggers (the effect cleanup cancels the
  previous debounce timer, then the effect either re-schedules the
  debounced fetch or clears state); a `settle` event is the debounce
  window elapsing, which runs `performFetch` synchronously up to its
  `await` (dispatching a fetch); a `respond` event is one in-flight
  fetch resolving, which runs the rest of `performFetch`
  (then/catch/finally).  Fetch dispatches are tagged with increasing
  sequence numbers so that response-ordering claims can be stated.

* `src/utils/vinDataDeserializer.ts` — the standalone response
  normalizer (`deserializeVinData` with its helpers `getValueOrNull`,
  `getNumberOrNull`).  Note the hook does NOT import it (the import is
  commented out in the source); the hook has its own inline
  deserialization.

JavaScript numbers that can be `NaN` are modelled by `JSNum`
(`nan` or an integer value — `parseInt` only ever produces integers);
`Number(s)` is modelled as `Option Rat` with `none` for `NaN`.
JavaScript `null`/`undefined` string fields are modelled as
`Option String` with `none`; where the source distinguishes them the
behaviour coincides for every construct used (`||`, `?.`, `===` checks
against both).
-/

/-- A JavaScript number as produced by `parseInt(s, 10)`: either `NaN`
or an integer. -/
inductive JSNum where
  | nan
  | val (n : Int)
deriving DecidableEq, Repr

/-- Models the JavaScript truthiness coercion `s || null` for a
string-or-absent value: `undefined`/`null` and the empty string are
falsy and give `null`; any other string is returned. -/
def truthyOrNull : Option String → Option String
  | none => none
  | some s => if s = "" then none else some s

/-- Numeric value of a list of decimal digit characters. -/
def digitsToNat (ds : List Char) : Nat :=
  ds.foldl (fun acc c => acc * 10 + (c.toNat - 48)) 0

/-- Split an optional leading sign off a character list, returning the
sign as an integer factor. -/
def splitSign : List Char → Int × List Char
  | '-' :: rest => (-1, rest)
  | '+' :: rest => (1, rest)
  | cs => (1, cs)

/-- Models JavaScript `parseInt(s, 10)`: skip leading whitespace, read
an optional sign, then the longest prefix of decimal digits; `NaN` when
that prefix is empty, otherwise the signed integer it denotes
(trailing garbage such as in `"2019abc"` is ignored). -/
def parseIntJS (s : String) : JSNum :=
  let cs := s.data.dropWhile (fun c => c.isWhitespace)
  let (sign, cs2) := splitSign cs
  let ds := cs2.takeWhile (fun c => c.isDigit)
  if ds.isEmpty then JSNum.nan
  else JSNum.val (sign * (digitsToNat ds : Int))

/-- Models JavaScript `Number(s)` on the string forms the NHTSA wire
format emits (decimal literals with an optional sign and fractional
part); hexadecimal, exponent and `Infinity` literals are not produced
by the API and are omitted.  `none` models `NaN`; the whole (trimmed)
string must be consumed.  An all-whitespace string gives `0`. -/
def numberJS (s : String) : Option Rat :=
  let cs := (s.data.dropWhile (fun c => c.isWhitespace)).reverse
    |>.dropWhile (fun c => c.isWhitespace) |>.reverse
  if cs.isEmpty then some 0
  else
    let (sign, cs2) := splitSign cs
    let intPart := cs2.takeWhile (fun c => c.isDigit)
    let rest := cs2.dropWhile (fun c => c.isDigit)
    match rest with
    | [] =>
      if intPart.isEmpty then none
      else some ((sign * (digitsToNat intPart : Int) : Int) : Rat)
    | '.' :: frac =>
      if frac.all (fun c => c.isDigit) ∧ ¬(intPart.isEmpty ∧ frac.isEmpty) then
        some (mkRat (sign * (digitsToNat intPart * 10 ^ frac.length + digitsToNat frac : Int))
          (10 ^ frac.length))
      else none
    | _ => none

/-- One record of the NHTSA `Results` array, as accessed by the source
(`NhtsaVinResult` in `vinDataDeserializer.ts`); every field is a string
on the wire, and `none` models the field being absent (`undefined`). -/
structure NhtsaRecord where
  VIN : Option String := none
  Make : Option String := none
  Manufacturer : Option String := none
  Model : Option String := none
  ModelYear : Option String := none
  VehicleType : Option String := none
  BodyClass : Option String := none
  DriveType : Option String := none
  EngineCylinders : Option String := none
  DisplacementL : Option String := none
  EngineHP : Option String := none
  FuelTypePrimary : Option String := none
  Doors : Option String := none
  ErrorCode : Option String := none
  ErrorText : Option String := none
deriving DecidableEq, Repr

/-- Structure `NhtsaApiResponse` as typed in `vinDataDeserializer.ts`:
`{ Count, Results }` (the `Message`/`SearchCriteria` fields are never
read). -/
structure NhtsaApiResponse where
  Count : Nat
  Results : List NhtsaRecord
deriving DecidableEq, Repr

/-- Structure `MainVehicleData` from `vinDataDeserializer.ts`. -/
structure MainVehicleData where
  vin : Option String
  make : Option String
  manufacturer : Option String
  model : Option String
  modelYear : Option String
  vehicleType : Option String
  bodyClass : Option String
  driveType : Option String
  engineCylinders : Option Rat
  engineDisplacementL : Option Rat
  engineHP : Option Rat
  fuelType : Option String
  doors : Option Rat
  errorCode : Option String
  errorText : Option String
deriving DecidableEq, Repr

/-- Helper `getValueOrNull` from `vinDataDeserializer.ts`: maps the empty
string, `undefined` and `null` to `null`, any other value through. -/
def getValueOrNull (value : Option String) : Option String :=
  match value with
  | none => none
  | some s => if s = "" then none else some s

/-- Helper `getNumberOrNull` from `vinDataDeserializer.ts`: `getValueOrNull`,
then `Number(...)`, with `NaN` mapped to `null`. -/
def getNumberOrNull (value : Option String) : Option Rat :=
  match getValueOrNull value with
  | none => none
  | some s => numberJS s

/-- The per-record mapping inside the `Results.map(...)` of
`deserializeVinData`. -/
def mapVinRecord (result : NhtsaRecord) : MainVehicleData :=
  { vin := getValueOrNull result.VIN
    make := getValueOrNull result.Make
    manufacturer := getValueOrNull result.Manufacturer
    model := getValueOrNull result.Model
    modelYear := getValueOrNull result.ModelYear
    vehicleType := getValueOrNull result.VehicleType
    bodyClass := getValueOrNull result.BodyClass
    driveType := getValueOrNull result.DriveType
    engineCylinders := getNumberOrNull result.EngineCylinders
    engineDisplacementL := getNumberOrNull result.DisplacementL
    engineHP := getNumberOrNull result.EngineHP
    fuelType := getValueOrNull result.FuelTypePrimary
    doors := getNumberOrNull result.Doors
    errorCode := getValueOrNull result.ErrorCode
    errorText := getValueOrNull result.ErrorText }

/-- Function `deserializeVinData` from `vinDataDeserializer.ts`: an empty or
count-zero response yields `[]` (the `!apiResponse`/`!apiResponse.Results`
guards cover a `null`/`undefined` argument, which the typed embedding
excludes); otherwise each record maps independently. -/
def deserializeVinData (apiResponse : NhtsaApiResponse) : List MainVehicleData :=
  if apiResponse.Count = 0 then []
  else apiResponse.Results.map mapVinRecord

/-- Structure `DecodedVinData` from `useVinData.ts`; `year` is a JavaScript
number, which `parseInt` can make `NaN`. -/
structure DecodedVinData where
  make : Option String
  model : Option String
  year : Option JSNum
deriving DecidableEq, Repr

/-- The inline deserialization in the hook of the first result record
(`useVinData.ts` lines 72–76): `make`/`model` via `|| null`, and
`year` via `results.ModelYear ? parseInt(results.ModelYear, 10) : null`
(absent or empty `ModelYear` is falsy and gives `null`; otherwise the
`parseInt` value is used unconditionally, `NaN` included). -/
def hookDeserialize (results : NhtsaRecord) : DecodedVinData :=
  { make := truthyOrNull results.Make
    model := truthyOrNull results.Model
    year :=
      match results.ModelYear with
      | none => none
      | some s => if s = "" then none else some (parseIntJS s) }

/-- Constant `VIN_LENGTH` from `useVinData.ts`. -/
def VIN_LENGTH : Nat := 17

/-- The fallback domain-error message from `useVinData.ts` line 82. -/
def FALLBACK_ERROR : String := "VIN not found or data unavailable."

/-- The fallback transport-error message from `useVinData.ts` line 93. -/
def TRANSPORT_FALLBACK : String := "Failed to decode VIN."

/-- The raw JSON body the hook receives: `rawData?.Results?.[0]` may
find the `Results` key absent (modelled as the empty list) or a
non-record (falsy) first element (modelled as a `none` entry). -/
structure HookResponse where
  Results : List (Option NhtsaRecord)
deriving DecidableEq, Repr

/-- Expression `rawData?.Results?.[0]` as used in the truthiness test of the hook:
`some r` exactly when the first element exists and is a record. -/
def firstRecord (resp : HookResponse) : Option NhtsaRecord :=
  (resp.Results.head?).bind id

/-- Outcome of the `await fetch` + `await response.json()` pair: either
a parsed JSON body, or an exception (whose `err.message` may be absent
or empty). -/
inductive FetchResponse where
  | ok (resp : HookResponse)
  | fail (msg : Option String)
deriving DecidableEq, Repr

/-- The observable and internal state of the hook.  `data`, `isLoading`,
`error` are the published React states; `pendingVin` is the pending
trailing-edge argument of the lodash debounce timer (`none` = no timer
running); `inFlight` is the multiset of dispatched, unresolved `fetch`
calls tagged with dispatch sequence numbers; `nextSeq` the next tag. -/
structure HookState where
  data : Option DecodedVinData
  isLoading : Bool
  error : Option String
  pendingVin : Option String
  inFlight : List (Nat × String)
  nextSeq : Nat
deriving DecidableEq, Repr

/-- State after mount with the default empty `initialVin` (the mount
effect sees length 0 ≠ 17 and clears everything). -/
def initState : HookState :=
  { data := none, isLoading := false, error := none,
    pendingVin := none, inFlight := [], nextSeq := 0 }

/-- Events driving the hook, each an atomic run of source code on the
single JavaScript thread. -/
inductive HookEvent where
  | submit (v : String)
  | settle
  | respond (seq : Nat) (r : FetchResponse)

/-- Models JavaScript `String.prototype.trim`: strip whitespace from
both ends. -/
def trimJS (s : String) : String :=
  String.mk (((s.data.dropWhile (fun c => c.isWhitespace)).reverse.dropWhile
    (fun c => c.isWhitespace)).reverse)

/-- Models JavaScript `String.prototype.toUpperCase` on the ASCII
strings VIN input consists of. -/
def toUpperJS (s : String) : String :=
  String.mk (s.data.map Char.toUpper)

/-- Expression `vinToFetch.trim().toUpperCase()` from the effect. -/
def normalizeVin (v : String) : String := toUpperJS (trimJS v)

/-- A `fetchVinData(v)` call and the effect run it triggers
(`useVinData.ts` lines 105–121): the effect cleanup first cancels any
pending debounce timer; then if the normalized VIN has length 17 the
debounced fetch is (re)scheduled with it, else state is cleared. -/
def submitStep (s : HookState) (v : String) : HookState :=
  let u := normalizeVin v
  if u.length = VIN_LENGTH then
    { s with pendingVin := some u }
  else
    { s with pendingVin := none, data := none, error := none, isLoading := false }

/-- The debounce window elapsing: the trailing-edge call runs
`performFetch` with the pending argument, synchronously up to its first
`await` — the length guard (lines 39–44), then
`setIsLoading(true); setError(null); setData(null)` and the `fetch`
dispatch.  With no timer pending nothing happens. -/
def settleStep (s : HookState) : HookState :=
  match s.pendingVin with
  | none => s
  | some u =>
    if u.length = VIN_LENGTH then
      { s with pendingVin := none, data := none, error := none, isLoading := true,
               inFlight := s.inFlight ++ [(s.nextSeq, u)],
               nextSeq := s.nextSeq + 1 }
    else
      { s with pendingVin := none, data := none, error := none, isLoading := false }

/-- The continuation of `performFetch` after its awaits resolve
(`useVinData.ts` lines 65–98).  Success with a truthy first record
publishes the inline deserialization and clears `error`; otherwise the
domain-error branch runs, where `results` is falsy so
`results?.ErrorText` is `undefined` and the fallback message is used.
An exception sets the error message (the `if (!error)` guard reads the
stale closure-captured initial `error`, which is `null`, so it always
passes).  `finally` clears `isLoading`. -/
def applyResponse (s : HookState) (r : FetchResponse) : HookState :=
  match r with
  | FetchResponse.ok resp =>
    match firstRecord resp with
    | some record =>
      { s with data := some (hookDeserialize record), error := none, isLoading := false }
    | none =>
      { s with error := some FALLBACK_ERROR, data := none, isLoading := false }
  | FetchResponse.fail msg =>
    { s with error := some ((truthyOrNull msg).getD TRANSPORT_FALLBACK),
             data := none, isLoading := false }

/-- Resolution of the in-flight fetch tagged `seq`.  The source applies
every response unconditionally when it arrives; the tag only identifies
which outstanding call resolved. -/
def respondStep (s : HookState) (seq : Nat) (r : FetchResponse) : HookState :=
  if s.inFlight.any (fun p => p.1 = seq) then
    let s' := applyResponse s r
    { s' with inFlight := s.inFlight.filter (fun p => p.1 ≠ seq) }
  else s

/-- One event transition. -/
def step (s : HookState) : HookEvent → HookState
  | HookEvent.submit v => submitStep s v
  | HookEvent.settle => settleStep s
  | HookEvent.respond seq r => respondStep s seq r

/-- Run a sequence of events. -/
def run (s : HookState) (es : List HookEvent) : HookState :=
  es.foldl step s

/-! Concrete fixtures used by the claim theorems and their witnesses. -/

/-- The 17-character VIN from the end-to-end scenario of the spec. -/
def vinA : String := "1HGCM82633A004352"

/-- A second, distinct 17-character VIN. -/
def vinB : String := "2HGCM82633A004353"

/-- The mock record of the end-to-end scenario. -/
def hondaRecord : NhtsaRecord :=
  { Make := some "HONDA", Model := some "ACCORD", ModelYear := some "2003",
    ErrorCode := some "0", ErrorText := some "" }

/-- A second record with a different payload. -/
def toyotaRecord : NhtsaRecord :=
  { Make := some "TOYOTA", Model := some "COROLLA", ModelYear := some "2020",
    ErrorCode := some "0", ErrorText := some "" }

/-- A record carrying explicit domain error text, as the remote service
emits for an undecodable VIN. -/
def errorRecord : NhtsaRecord :=
  { Make := some "", Model := some "", ModelYear := some "",
    ErrorCode := some "5", ErrorText := some "Invalid VIN" }

/-- Successful response carrying `hondaRecord`. -/
def respA : FetchResponse := FetchResponse.ok { Results := [some hondaRecord] }

/-- Successful response carrying `toyotaRecord`. -/
def respB : FetchResponse := FetchResponse.ok { Results := [some toyotaRecord] }

/-- Event trace: submit and dispatch VIN A (sequence 0), then submit and
dispatch VIN B (sequence 1), then the response of B arrives and is
applied.  The lookup of A is still unresolved. -/
def staleTrace : List HookEvent :=
  [HookEvent.submit vinA, HookEvent.settle,
   HookEvent.submit vinB, HookEvent.settle,
   HookEvent.respond 1 respB]

/-- The raw record with every field absent. -/
def emptyRecord : NhtsaRecord := {}

/-- A loading state with two lookups in flight (sequence 0 for VIN A,
sequence 1 for VIN B), as reached after `staleTrace` minus its last
event. -/
def twoInFlightState : HookState :=
  { data := none, isLoading := true, error := none, pendingVin := none,
    inFlight := [(0, vinA), (1, vinB)], nextSeq := 2 }

/-- The data/error exclusivity invariant: at most one of the published
`data` and `error` is non-null. -/
def stateInv (s : HookState) : Prop := s.data = none ∨ s.error = none

/-- A state with one lookup in flight (sequence 0 for VIN A), as
reached after submitting VIN A and letting the window settle. -/
def oneInFlightState : HookState :=
  { data := none, isLoading := true, error := none, pendingVin := none,
    inFlight := [(0, vinA)], nextSeq := 1 }

/-- A state with published data, a pending debounce timer and an
in-flight lookup, used to exercise the reset path. -/
def demoState : HookState :=
  { data := some (hookDeserialize hondaRecord), isLoading := true,
    error := none, pendingVin := some vinA, inFlight := [(0, vinA)],
    nextSeq := 1 }

/-! ### Helper lemmas -/

theorem truthyOrNull_of_blank (v : Option String) (h : v = none ∨ v = some "") :
    truthyOrNull v = none := by
  rcases h with h | h <;> subst h <;> simp [truthyOrNull]

theorem truthyOrNull_ne_empty (v : Option String) (s : String)
    (h : truthyOrNull v = some s) : s ≠ "" := by
  cases v with
  | none => simp [truthyOrNull] at h
  | some t =>
    by_cases ht : t = ""
    · simp [truthyOrNull, ht] at h
    · simp only [truthyOrNull, if_neg ht] at h
      injection h with h
      subst h
      exact ht

theorem getValueOrNull_of_blank (v : Option String) (h : v = none ∨ v = some "") :
    getValueOrNull v = none := by
  rcases h with h | h <;> subst h <;> simp [getValueOrNull]

theorem getValueOrNull_ne_empty (v : Option String) (s : String)
    (h : getValueOrNull v = some s) : s ≠ "" := by
  cases v with
  | none => simp [getValueOrNull] at h
  | some t =>
    by_cases ht : t = ""
    · simp [getValueOrNull, ht] at h
    · simp only [getValueOrNull, if_neg ht] at h
      injection h with h
      subst h
      exact ht

theorem submitStep_inFlight (s : HookState) (v : String) :
    (submitStep s v).inFlight = s.inFlight := by
  simp only [submitStep]
  split <;> rfl

theorem submitStep_nextSeq (s : HookState) (v : String) :
    (submitStep s v).nextSeq = s.nextSeq := by
  simp only [submitStep]
  split <;> rfl

theorem submitStep_pendingVin (s : HookState) (v : String) :
    (submitStep s v).pendingVin =
      if (normalizeVin v).length = VIN_LENGTH then some (normalizeVin v) else none := by
  simp only [submitStep]
  split <;> simp_all

theorem run_append (s : HookState) (es fs : List HookEvent) :
    run s (es ++ fs) = run (run s es) fs := by
  simp [run]

theorem run_submits (s : HookState) (vs : List String) :
    (run s (vs.map HookEvent.submit)).inFlight = s.inFlight ∧
    (run s (vs.map HookEvent.submit)).nextSeq = s.nextSeq := by
  induction vs generalizing s with
  | nil => exact ⟨rfl, rfl⟩
  | cons v vs ih =>
    have h := ih (submitStep s v)
    exact ⟨h.1.trans (submitStep_inFlight s v), h.2.trans (submitStep_nextSeq s v)⟩

/-! ### Claim theorems -/

/-- Claim C1, counterexample: after lookup 0 (VIN A) and lookup 1
(VIN B) are both dispatched and the response of lookup 1 has been
applied (published result = TOYOTA), the late response of lookup 0 is
NOT discarded: applying it changes the published result to HONDA.  The
claim states the stale response must be discarded silently and never
change the published result. -/
theorem c1_counterexample :
    (run initState staleTrace).data = some (hookDeserialize toyotaRecord) ∧
    (run initState (staleTrace ++ [HookEvent.respond 0 respA])).data
      = some (hookDeserialize hondaRecord) ∧
    hookDeserialize hondaRecord ≠ hookDeserialize toyotaRecord :=
  ⟨rfl, rfl, by decide⟩

/-- Claim C1 (amended): the hook has no staleness guard.  Whatever
other lookups have been dispatched before or after it (the state `s`
is arbitrary, in particular its `nextSeq` may exceed `j + 1`), the
response of any in-flight lookup `j` is applied to the published state
when it arrives; after two responses arrive in sequence, the published
result is that of the LAST response to arrive, not of the most recently
dispatched lookup.  Only pending debounce timers are ever cancelled. -/
theorem c1_response_applied_regardless_of_newer (s : HookState) (i j : Nat)
    (ri : FetchResponse) (respj : HookResponse) (rec : NhtsaRecord)
    (hj : ((respondStep s i ri).inFlight.any (fun p => p.1 = j)) = true)
    (hr : firstRecord respj = some rec) :
    (run s [HookEvent.respond i ri, HookEvent.respond j (FetchResponse.ok respj)]).data
      = some (hookDeserialize rec) ∧
    (run s [HookEvent.respond i ri, HookEvent.respond j (FetchResponse.ok respj)]).error
      = none ∧
    (run s [HookEvent.respond i ri, HookEvent.respond j (FetchResponse.ok respj)]).isLoading
      = false := by
  have key : ∀ t : HookState, (t.inFlight.any (fun p => p.1 = j)) = true →
      (respondStep t j (FetchResponse.ok respj)).data = some (hookDeserialize rec) ∧
      (respondStep t j (FetchResponse.ok respj)).error = none ∧
      (respondStep t j (FetchResponse.ok respj)).isLoading = false := by
    intro t ht
    simp [respondStep, ht, applyResponse, hr]
  exact key (respondStep s i ri) hj

/-- Claim C1, witness for the amended theorem: with lookups 0 (VIN A)
and 1 (VIN B) in flight, the response of lookup 1 arrives first, then
the stale response of lookup 0 arrives and is applied, publishing the
HONDA payload of the superseded lookup. -/
theorem c1_witness :
    (((respondStep twoInFlightState 1 respB).inFlight.any (fun p => p.1 = 0)) = true) ∧
    firstRecord { Results := [some hondaRecord] } = some hondaRecord ∧
    ((run twoInFlightState [HookEvent.respond 1 respB,
        HookEvent.respond 0 (FetchResponse.ok { Results := [some hondaRecord] })]).data
      = some (hookDeserialize hondaRecord) ∧
     (run twoInFlightState [HookEvent.respond 1 respB,
        HookEvent.respond 0 (FetchResponse.ok { Results := [some hondaRecord] })]).error
      = none ∧
     (run twoInFlightState [HookEvent.respond 1 respB,
        HookEvent.respond 0 (FetchResponse.ok { Results := [some hondaRecord] })]).isLoading
      = false) :=
  ⟨by decide, rfl,
    c1_response_applied_regardless_of_newer twoInFlightState 1 0 respB
      { Results := [some hondaRecord] } hondaRecord (by decide) rfl⟩

/-- Claim C2, counterexample: the inline normalization of the hook maps
`ModelYear = "abc"` to `year = NaN`, not to the null marker — the
source applies `parseInt` with no `NaN` guard. -/
theorem c2_counterexample :
    (hookDeserialize { ModelYear := some "abc" }).year = some JSNum.nan ∧
    some JSNum.nan ≠ (none : Option JSNum) :=
  ⟨rfl, by decide⟩

/-- Claim C2 (amended): numeric parsing never throws (the embedding is
a total function) and `ModelYear = "2019"` yields the integer 2019, but
a non-numeric `ModelYear` such as `"abc"` yields `year = NaN` rather
than the null marker in the published result.  The standalone
deserializer maps a non-numeric value to null in its numeric fields
(`getNumberOrNull`) and keeps `modelYear` as a raw string, but it is
not used by the hook. -/
theorem c2_parse_best_effort :
    (hookDeserialize { ModelYear := some "2019" }).year = some (JSNum.val 2019) ∧
    (hookDeserialize { ModelYear := some "abc" }).year = some JSNum.nan ∧
    getNumberOrNull (some "abc") = none ∧
    getNumberOrNull (some "2019") = some 2019 ∧
    (mapVinRecord { ModelYear := some "abc" }).modelYear = some "abc" :=
  ⟨rfl, rfl, rfl, rfl, rfl⟩

/-- Claim C3: in the published decoded result, a raw field value that
is absent or the empty string (the reserved blank value of the wire
format) is mapped to the explicit unknown marker `none`, and no
published string field ever equals the empty string; likewise for
`getValueOrNull` in the standalone deserializer. -/
theorem c3_blank_to_unknown (rec : NhtsaRecord) :
    ((rec.Make = none ∨ rec.Make = some "") → (hookDeserialize rec).make = none) ∧
    ((rec.Model = none ∨ rec.Model = some "") → (hookDeserialize rec).model = none) ∧
    ((rec.ModelYear = none ∨ rec.ModelYear = some "") → (hookDeserialize rec).year = none) ∧
    (∀ s, (hookDeserialize rec).make = some s → s ≠ "") ∧
    (∀ s, (hookDeserialize rec).model = some s → s ≠ "") ∧
    (∀ v, (v = none ∨ v = some "") → getValueOrNull v = none) ∧
    (∀ v s, getValueOrNull v = some s → s ≠ "") := by
  refine ⟨?_, ?_, ?_, ?_, ?_, ?_, ?_⟩
  · intro h
    exact truthyOrNull_of_blank _ h
  · intro h
    exact truthyOrNull_of_blank _ h
  · intro h
    rcases h with h | h <;> simp [hookDeserialize, h]
  · intro s hs
    exact truthyOrNull_ne_empty _ _ hs
  · intro s hs
    exact truthyOrNull_ne_empty _ _ hs
  · intro v h
    exact getValueOrNull_of_blank v h
  · intro v s hs
    exact getValueOrNull_ne_empty v s hs

/-- Claim C3, witness: the theorem applied at a record whose `Make` is
the empty string and whose `Model` is absent. -/
theorem c3_witness :
    (hookDeserialize { Make := some "", Model := none, ModelYear := some "" }).make = none ∧
    (hookDeserialize { Make := some "", Model := none, ModelYear := some "" }).model = none ∧
    (hookDeserialize { Make := some "", Model := none, ModelYear := some "" }).year = none :=
  ⟨(c3_blank_to_unknown _).1 (Or.inr rfl),
   (c3_blank_to_unknown _).2.1 (Or.inl rfl),
   (c3_blank_to_unknown _).2.2.1 (Or.inr rfl)⟩

/-- Claim C4, counterexample: a completed remote call whose single
record carries explicit error text (`ErrorCode = "5"`,
`ErrorText = "Invalid VIN"`) is NOT published as an error: the code
takes the success branch, publishes a (fully unknown) result object and
clears `error`.  The claim states such a response must publish
`result = none` with `error` set to the remote error text. -/
theorem c4_counterexample :
    (run initState [HookEvent.submit vinA, HookEvent.settle,
        HookEvent.respond 0 (FetchResponse.ok { Results := [some errorRecord] })]).data
      = some { make := none, model := none, year := none } ∧
    (run initState [HookEvent.submit vinA, HookEvent.settle,
        HookEvent.respond 0 (FetchResponse.ok { Results := [some errorRecord] })]).error
      = none ∧
    (run initState [HookEvent.submit vinA, HookEvent.settle,
        HookEvent.respond 0 (FetchResponse.ok { Results := [some errorRecord] })]).error
      ≠ some "Invalid VIN" ∧
    (run initState [HookEvent.submit vinA, HookEvent.settle,
        HookEvent.respond 0 (FetchResponse.ok { Results := [some errorRecord] })]).data
      ≠ none :=
  ⟨rfl, rfl, by decide, by decide⟩

/-- Claim C4 (amended): only when the completed response has no usable
first record (empty `Results`, absent `Results`, or a falsy first
element) does the decoder publish `result = none` with an error, and
that error is always the generic fallback message — the remote
`ErrorText` is never surfaced, because in this branch no record is
available to read it from, while a response whose first element is a
record is treated as success regardless of its error fields.  For the
response `Results: []` the published state is `result = none`,
`error =` the fallback message, `isLoading = false`. -/
theorem c4_no_record_fallback_error (s : HookState) (seq : Nat) (resp : HookResponse)
    (hin : (s.inFlight.any (fun p => p.1 = seq)) = true)
    (hnone : firstRecord resp = none) :
    (step s (HookEvent.respond seq (FetchResponse.ok resp))).error
      = some FALLBACK_ERROR ∧
    (step s (HookEvent.respond seq (FetchResponse.ok resp))).data = none ∧
    (step s (HookEvent.respond seq (FetchResponse.ok resp))).isLoading = false := by
  simp [step, respondStep, hin, applyResponse, hnone]

/-- Claim C4, witness for the amended theorem: the response
`Results: []` arriving for the one in-flight lookup yields
`result = none`, the fallback error message, and `isLoading = false`. -/
theorem c4_witness :
    ((oneInFlightState.inFlight.any (fun p => p.1 = 0)) = true) ∧
    firstRecord { Results := [] } = none ∧
    ((step oneInFlightState (HookEvent.respond 0 (FetchResponse.ok { Results := [] }))).error
      = some FALLBACK_ERROR ∧
     (step oneInFlightState (HookEvent.respond 0 (FetchResponse.ok { Results := [] }))).data
      = none ∧
     (step oneInFlightState (HookEvent.respond 0 (FetchResponse.ok { Results := [] }))).isLoading
      = false) :=
  ⟨by decide, rfl,
    c4_no_record_fallback_error oneInFlightState 0 { Results := [] } (by decide) rfl⟩

/-- Claim C5: a submitted input whose trimmed, upper-cased form does
not have length 17 immediately resets the published state
(`result = none`, `error = none`, `isLoading = false`), cancels any
pending debounce timer, and dispatches no remote call (`inFlight` and
`nextSeq` are untouched); the redundant length guard at the top of
`performFetch` behaves the same way if such a value ever reaches it. -/
theorem c5_invalid_input_synchronous_reset (s : HookState) (v : String)
    (h : (normalizeVin v).length ≠ VIN_LENGTH) :
    step s (HookEvent.submit v)
      = { s with pendingVin := none, data := none, error := none, isLoading := false } ∧
    step { s with pendingVin := some (normalizeVin v) } HookEvent.settle
      = { s with pendingVin := none, data := none, error := none, isLoading := false } := by
  constructor
  · simp [step, submitStep, h]
  · simp [step, settleStep, h]

/-- Claim C5, witness: submitting `"SHORT"` on a state that has
published data, a pending debounce timer and an in-flight lookup
clears the published state and the timer and dispatches nothing. -/
theorem c5_witness :
    ((normalizeVin "SHORT").length ≠ VIN_LENGTH) ∧
    (step demoState (HookEvent.submit "SHORT")
      = { demoState with pendingVin := none, data := none, error := none, isLoading := false } ∧
     step { demoState with pendingVin := some (normalizeVin "SHORT") } HookEvent.settle
      = { demoState with pendingVin := none, data := none, error := none, isLoading := false }) :=
  ⟨by decide, c5_invalid_input_synchronous_reset demoState "SHORT" (by decide)⟩

/-- Claim C6: trailing-edge debounce coalescing.  For any burst of
submit calls with no intervening settle of the window, no lookup is
dispatched during the burst (`inFlight` and `nextSeq` are unchanged —
no leading-edge invocation), the pending timer holds only the
normalized last value, and when the window then settles exactly the
last value is dispatched (or nothing, if it fails the length
predicate); the values of the earlier calls never reach the fetch. -/
theorem c6_debounce_coalescing (s : HookState) (vs : List String) (v : String) :
    (run s ((vs ++ [v]).map HookEvent.submit)).inFlight = s.inFlight ∧
    (run s ((vs ++ [v]).map HookEvent.submit)).nextSeq = s.nextSeq ∧
    (run s ((vs ++ [v]).map HookEvent.submit)).pendingVin
      = (if (normalizeVin v).length = VIN_LENGTH then some (normalizeVin v) else none) ∧
    (run s ((vs ++ [v]).map HookEvent.submit ++ [HookEvent.settle])).inFlight
      = s.inFlight ++ (if (normalizeVin v).length = VIN_LENGTH
          then [(s.nextSeq, normalizeVin v)] else []) := by
  have hsub := run_submits s (vs ++ [v])
  have hmap : (vs ++ [v]).map HookEvent.submit
      = vs.map HookEvent.submit ++ [HookEvent.submit v] := by simp
  have hlast : run s ((vs ++ [v]).map HookEvent.submit)
      = submitStep (run s (vs.map HookEvent.submit)) v := by
    rw [hmap, run_append]
    rfl
  have hpend : (run s ((vs ++ [v]).map HookEvent.submit)).pendingVin
      = (if (normalizeVin v).length = VIN_LENGTH then some (normalizeVin v) else none) := by
    rw [hlast, submitStep_pendingVin]
  refine ⟨hsub.1, hsub.2, hpend, ?_⟩
  rw [run_append]
  generalize hT : run s ((vs ++ [v]).map HookEvent.submit) = t at hpend hsub
  by_cases hv : (normalizeVin v).length = VIN_LENGTH
  · rw [if_pos hv] at hpend
    simp [run, step, settleStep, hpend, hv, hsub.1, hsub.2]
  · rw [if_neg hv] at hpend
    simp [run, step, settleStep, hpend, hv, hsub.1]

/-- Claim C7: any completed response whose `Results` array has a
record as its first element is treated as success — the normalized
record is published and `error` cleared — for every value of
`ErrorCode` and `ErrorText` (the record is universally quantified),
and the inline normalizer reads neither field. -/
theorem c7_record_presence_is_success (s : HookState) (seq : Nat)
    (resp : HookResponse) (rec : NhtsaRecord)
    (hin : (s.inFlight.any (fun p => p.1 = seq)) = true)
    (hr : firstRecord resp = some rec) :
    (step s (HookEvent.respond seq (FetchResponse.ok resp))).data
      = some (hookDeserialize rec) ∧
    (step s (HookEvent.respond seq (FetchResponse.ok resp))).error = none ∧
    (step s (HookEvent.respond seq (FetchResponse.ok resp))).isLoading = false ∧
    (∀ ec et, hookDeserialize { rec with ErrorCode := ec, ErrorText := et }
      = hookDeserialize rec) := by
  refine ⟨?_, ?_, ?_, fun ec et => rfl⟩ <;>
    simp [step, respondStep, hin, applyResponse, hr]

/-- Claim C7, witness: the theorem applied to a response whose record
has `ErrorCode = "5"` and non-empty `ErrorText`: it is still published
as a successful result with `error = none`. -/
theorem c7_witness :
    ((oneInFlightState.inFlight.any (fun p => p.1 = 0)) = true) ∧
    firstRecord { Results := [some errorRecord] } = some errorRecord ∧
    ((step oneInFlightState
        (HookEvent.respond 0 (FetchResponse.ok { Results := [some errorRecord] }))).data
      = some (hookDeserialize errorRecord) ∧
     (step oneInFlightState
        (HookEvent.respond 0 (FetchResponse.ok { Results := [some errorRecord] }))).error
      = none ∧
     (step oneInFlightState
        (HookEvent.respond 0 (FetchResponse.ok { Results := [some errorRecord] }))).isLoading
      = false ∧
     (∀ ec et, hookDeserialize { errorRecord with ErrorCode := ec, ErrorText := et }
      = hookDeserialize errorRecord)) :=
  ⟨by decide, rfl,
    c7_record_presence_is_success oneInFlightState 0 { Results := [some errorRecord] }
      errorRecord (by decide) rfl⟩

/-- Claim C8: the normalization step is total — both embeddings are
Lean functions, defined for every input record without any exceptional
exit — and the completely empty raw record yields a result with every
field equal to the unknown marker, in the inline hook normalizer and
in the standalone deserializer alike. -/
theorem c8_normalizer_total_empty_unknown :
    hookDeserialize emptyRecord = { make := none, model := none, year := none } ∧
    mapVinRecord emptyRecord
      = { vin := none, make := none, manufacturer := none, model := none,
          modelYear := none, vehicleType := none, bodyClass := none,
          driveType := none, engineCylinders := none, engineDisplacementL := none,
          engineHP := none, fuelType := none, doors := none, errorCode := none,
          errorText := none } :=
  ⟨rfl, rfl⟩

/-- Claim C9: submitting the 17-character VIN and letting the window
settle dispatches exactly one lookup (sequence 0, and `nextSeq` shows
no other dispatch happened); the mock HONDA response then yields the
published state `result = {make: HONDA, model: ACCORD, year: 2003}`,
`error = none`, `isLoading = false`. -/
theorem c9_end_to_end_honda :
    (run initState [HookEvent.submit "1HGCM82633A004352", HookEvent.settle]).inFlight
      = [(0, "1HGCM82633A004352")] ∧
    (run initState [HookEvent.submit "1HGCM82633A004352", HookEvent.settle]).nextSeq = 1 ∧
    (run initState [HookEvent.submit "1HGCM82633A004352", HookEvent.settle]).isLoading
      = true ∧
    run initState [HookEvent.submit "1HGCM82633A004352", HookEvent.settle,
        HookEvent.respond 0 respA]
      = { data := some { make := some "HONDA", model := some "ACCORD", year := some (JSNum.val 2003) },
          isLoading := false, error := none, pendingVin := none, inFlight := [], nextSeq := 1 } :=
  ⟨rfl, rfl, rfl, rfl⟩

/-- The exclusivity invariant survives one event transition: every
handler either clears `data` or clears `error` (or touches neither). -/
theorem stateInv_step (s : HookState) (e : HookEvent) (h : stateInv s) :
    stateInv (step s e) := by
  cases e with
  | submit v =>
    simp only [step, submitStep]
    split
    · exact h
    · exact Or.inl rfl
  | settle =>
    simp only [step, settleStep]
    split
    · exact h
    · split
      · exact Or.inl rfl
      · exact Or.inl rfl
  | respond seq r =>
    simp only [step, respondStep]
    split
    · cases r with
      | ok resp =>
        simp only [applyResponse]
        split
        · exact Or.inr rfl
        · exact Or.inl rfl
      | fail msg => exact Or.inl rfl
    · exact h

/-- The exclusivity invariant holds along every run. -/
theorem stateInv_run (s : HookState) (es : List HookEvent) (h : stateInv s) :
    stateInv (run s es) := by
  induction es generalizing s with
  | nil => exact h
  | cons e es ih => exact ih (step s e) (stateInv_step s e h)

/-- Claim C10: after any sequence of decoder events from the initial
state (predicate rejections, fetch starts, successes, domain failures,
transport failures), the published `data` and `error` are never both
non-null. -/
theorem c10_data_error_mutually_exclusive (es : List HookEvent) :
    ((run initState es).data ≠ none → (run initState es).error = none) ∧
    ((run initState es).error ≠ none → (run initState es).data = none) := by
  have h := stateInv_run initState es (Or.inl rfl)
  rcases h with h | h
  · exact ⟨fun hd => absurd h hd, fun _ => h⟩
  · exact ⟨fun _ => h, fun he => absurd h he⟩

/-- Claim C6, witness: the theorem applied to a concrete burst — two
values followed by VIN A within the window.  Only VIN A is dispatched
when the window settles. -/
theorem c6_witness :
    (run initState ((["AAA", "BBB"] ++ [vinA]).map HookEvent.submit)).inFlight
      = initState.inFlight ∧
    (run initState ((["AAA", "BBB"] ++ [vinA]).map HookEvent.submit)).nextSeq
      = initState.nextSeq ∧
    (run initState ((["AAA", "BBB"] ++ [vinA]).map HookEvent.submit)).pendingVin
      = (if (normalizeVin vinA).length = VIN_LENGTH then some (normalizeVin vinA) else none) ∧
    (run initState ((["AAA", "BBB"] ++ [vinA]).map HookEvent.submit ++ [HookEvent.settle])).inFlight
      = initState.inFlight ++ (if (normalizeVin vinA).length = VIN_LENGTH
          then [(initState.nextSeq, normalizeVin vinA)] else []) :=
  c6_debounce_coalescing initState ["AAA", "BBB"] vinA

/-- Claim C10, witness: the invariant instantiated on a concrete trace
ending in a successful lookup. -/
theorem c10_witness :
    ((run initState [HookEvent.submit vinA, HookEvent.settle,
        HookEvent.respond 0 respA]).data ≠ none →
      (run initState [HookEvent.submit vinA, HookEvent.settle,
        HookEvent.respond 0 respA]).error = none) ∧
    ((run initState [HookEvent.submit vinA, HookEvent.settle,
        HookEvent.respond 0 respA]).error ≠ none →
      (run initState [HookEvent.submit vinA, HookEvent.settle,
        HookEvent.respond 0 respA]).data = none) :=
  c10_data_error_mutually_exclusive
    [HookEvent.submit vinA, HookEvent.settle, HookEvent.respond 0 respA]
